import Mathlib

/-!
Verification of the DevOps AI Agent (src/devops_agent.py) against its
natural-language specification.

The program is a single-file Python CLI.  We shallowly embed it:

* JSON values (`Json`) model Python objects obtained from `json.load` /
  `response.json()` and the configuration dictionary.
* `HttpResult` models the outcome of one HTTP call made with `requests`:
  either an exception carrying its message text, or a response with a
  status code and a JSON body.
* Each Python function becomes a pure Lean function taking the would-be
  network outcome as an explicit argument.  Functions that may or may not
  issue a request additionally return the request they issued (as an
  `Option`/`Nat` count), so that claims about "no network call happens"
  are statable.
-/

/-- JSON values, as produced by Python `json.load` / `response.json()`.
Numbers are modelled as integers (no claim depends on float behaviour). -/
inductive Json where
  | null : Json
  | bool (b : Bool) : Json
  | num (n : Int) : Json
  | str (s : String) : Json
  | arr (xs : List Json) : Json
  | obj (fields : List (String × Json)) : Json

/-- Outcome of one HTTP call made through `requests`: an exception (with
`str(e)` as message), or a response with status code and parsed JSON body. -/
inductive HttpResult where
  | exn (msg : String) : HttpResult
  | resp (status : Nat) (body : Json) : HttpResult

/-- Python `d[k]` subscription on a JSON value.  On a dict, returns the
value or raises `KeyError` (whose `str` is the quoted key); on anything
else raises a `TypeError`.  Parsed JSON objects have unique keys, so the
first match is the value. -/
def Json.getField : Json → String → Except String Json
  | .obj fs, k =>
    match fs.find? (fun p => p.1 == k) with
    | some p => .ok p.2
    | none => .error ("'" ++ k ++ "'")
  | _, _ => .error "TypeError: object is not subscriptable"

/-- Python `xs[i]` on a JSON value.  On a list, returns the element or
raises `IndexError`; on anything else raises a `TypeError`. -/
def Json.getIdx : Json → Nat → Except String Json
  | .arr xs, i =>
    match xs.get? i with
    | some v => .ok v
    | none => .error "IndexError: list index out of range"
  | _, _ => .error "TypeError: object is not subscriptable"

/-- Python `d.get(k, default)` on a JSON value: on a dict, the value or the
default; on anything else raises `AttributeError` (only dicts have `.get`). -/
def Json.pyGetD (j : Json) (k : String) (d : Json) : Except String Json :=
  match j with
  | .obj fs =>
    match fs.find? (fun p => p.1 == k) with
    | some p => .ok p.2
    | none => .ok d
  | _ => .error "AttributeError: object has no attribute get"

/-- Python `d.get(k)` (default `None`). -/
def Json.pyGet (j : Json) (k : String) : Except String Json :=
  j.pyGetD k .null

/-- Python truthiness of a JSON value (`if model_id:`). -/
def Json.truthy : Json → Bool
  | .null => false
  | .bool b => b
  | .num n => n != 0
  | .str s => s != ""
  | .arr xs => !xs.isEmpty
  | .obj fs => !fs.isEmpty

/-- Whether a JSON object has a field named `k`. -/
def Json.hasKey (j : Json) (k : String) : Bool :=
  match j with
  | .obj fs => (fs.find? (fun p => p.1 == k)).isSome
  | _ => false

/-- Proposition that `s` starts with `p` (the spec's "begins with"). -/
def strStarts (s p : String) : Prop := ∃ r, s = p ++ r

/-- Proposition that `s` contains `sub` as a contiguous substring (the spec's "contains"). -/
def strContains (s sub : String) : Prop := ∃ p q, s = p ++ sub ++ q

/-!  ## Key Validator (`validate_openrouter_api_key`, lines 125-144)

The Python function returns a `bool`.  We additionally return the number
of HTTP requests issued (0 or 1), so that the short-circuit on a falsy
key is observable.  `net` is the outcome the GET to
`https://openrouter.ai/api/v1/auth/key` would have. -/

def validate_openrouter_api_key (api_key : String) (net : HttpResult) :
    Bool × Nat :=
  -- `if not api_key: return False` — for a string, falsy means empty.
  if api_key = "" then (false, 0)
  else
    match net with
    | .exn _ => (false, 1)          -- `except Exception: return False`
    | .resp status _ => (status == 200, 1)  -- `return response.status_code == 200`

/-!  ## Model Directory Client (`get_available_models`, lines 146-219) -/

/-- The hardcoded fallback model list (lines 173-185, 191-203, 207-219:
the same eleven identifiers appear verbatim three times). -/
def fallback_models : List Json :=
  [.str "anthropic/claude-3-opus",
   .str "anthropic/claude-3-sonnet",
   .str "anthropic/claude-3-haiku",
   .str "google/gemini-pro",
   .str "google/gemini-1.5-pro",
   .str "openai/gpt-4o",
   .str "openai/gpt-4-turbo",
   .str "openai/gpt-3.5-turbo",
   .str "meta/llama-3-70b-instruct",
   .str "mistralai/mixtral-8x7b",
   .str "mistralai/mistral-7b-instruct"]

/-- The loop at lines 165-168: for each entry, `model.get('id')` (raising
`AttributeError` when the entry is not a dict), keeping the id when it is
truthy.  A raised exception aborts the whole loop (propagating to the
`except` at line 204). -/
def extract_model_ids : List Json → Except String (List Json)
  | [] => .ok []
  | m :: rest => do
    let idv ← m.pyGet "id"
    let tail ← extract_model_ids rest
    pure (if idv.truthy then idv :: tail else tail)

/-- Modelled from the spec's words for comparison ("extracts every model
identifier present in the response body's data array, preserving
server-provided order"): the in-order list of truthy `id` fields of the
dict entries. -/
def spec_model_ids (items : List Json) : List Json :=
  items.filterMap fun m =>
    match m with
    | .obj fs =>
      match fs.find? (fun p => p.1 == "id") with
      | some p => if p.2.truthy then some p.2 else none
      | none => none
    | _ => none

/-- Embedding of `get_available_models` (lines 146-219).  `net` is the outcome of the
GET to `/api/v1/models`.  On 200 the body's `data` entries are scanned
for ids; an empty result, a non-200 status, or any exception yields the
fallback list.  When `data` is present but not a JSON array, Python
either raises while iterating or while calling `.get` on a non-dict
element, or iterates zero times (empty str/dict) — every such case also
ends in the same fallback list, which the `_ => fallback_models` arm
captures. -/
def get_available_models (net : HttpResult) : List Json :=
  match net with
  | .exn _ => fallback_models
  | .resp status body =>
    if status = 200 then
      match body.pyGetD "data" (.arr []) with
      | .error _ => fallback_models
      | .ok d =>
        match d with
        | .arr items =>
          match extract_model_ids items with
          | .error _ => fallback_models
          | .ok ids => if ids.isEmpty then fallback_models else ids
        | _ => fallback_models
    else fallback_models

/-!  ## Chat Request Client (`analyze_error` lines 221-266,
`install_tool` lines 268-311)

Both functions build a prompt, POST it to `/api/v1/chat/completions`,
and never raise: every exception inside the `try` block (including a
`KeyError` from `self.config["api_key"]` / `self.config["model"]`, or a
`KeyError`/`IndexError` while digging into the response body) is caught
and converted into an `Error: ...` string.  The returned value is
`result['choices'][0]['message']['content']`, which in Python can be any
JSON value, so the embedded result type is `Json`.  Alongside the
result we return the chat request that was issued, `none` when the
exception fired before `requests.post` was reached. -/

/-- The single-message chat request the function sends (model and key as
the JSON values read from the config, content the built prompt). -/
structure ChatRequest where
  api_key : Json
  model : Json
  content : String

/-- Prompt template of `analyze_error` (lines 223-235). -/
def analyze_prompt (error_text : String) : String :=
  "You are a DevOps AI assistant. Analyze this error and provide a solution:\n\n```\n"
    ++ error_text
    ++ "\n```\n\nPlease explain:\n1. What is causing this error\n2. How to fix it\n3. Any preventive measures for the future\n\nFormat your response in markdown with clear steps.\n"

/-- Prompt template of `install_tool` (lines 270-280). -/
def install_prompt (tool_name : String) : String :=
  "You are a DevOps AI assistant. Provide detailed installation instructions for "
    ++ tool_name
    ++ ".\n\nInclude:\n1. Prerequisites\n2. Step-by-step installation process\n3. Basic configuration\n4. How to verify the installation\n5. Common issues and troubleshooting\n\nFormat your response in markdown with clear steps that can be executed in a terminal.\n"

/-- Extraction chain `result['choices'][0]['message']['content']` (lines 259, 304): each
step can raise, and the raise is caught by the enclosing handler. -/
def extract_first_choice_content (body : Json) : Except String Json := do
  let cs ← body.getField "choices"
  let c0 ← cs.getIdx 0
  let msg ← c0.getField "message"
  msg.getField "content"

/-- Error string of `analyze_error`'s `except` handler (line 266). -/
def analyze_exn_msg (e : String) : String :=
  "Error: Could not analyze the error due to an API issue: " ++ e

/-- Error string of `analyze_error`'s non-200 branch (line 263). -/
def analyze_status_msg (status : Nat) : String :=
  "Error: Could not analyze the error. API responded with " ++ toString status ++ "."

/-- Error string of `install_tool`'s `except` handler (line 311). -/
def install_exn_msg (e : String) : String :=
  "Error: Could not get installation instructions due to an API issue: " ++ e

/-- Error string of `install_tool`'s non-200 branch (line 308). -/
def install_status_msg (status : Nat) : String :=
  "Error: Could not get installation instructions. API responded with " ++ toString status ++ "."

/-- Embedding of `analyze_error` (lines 221-266).  `config` is `self.config`; `net`
the outcome the POST would have. -/
def analyze_error (config : Json) (error_text : String) (net : HttpResult) :
    Json × Option ChatRequest :=
  let prompt := analyze_prompt error_text
  match config.getField "api_key" with          -- headers, line 239
  | .error e => (.str (analyze_exn_msg e), none)
  | .ok kv =>
    match config.getField "model" with          -- data, line 244
    | .error e => (.str (analyze_exn_msg e), none)
    | .ok mv =>
      let req : ChatRequest := ⟨kv, mv, prompt⟩
      match net with
      | .exn msg => (.str (analyze_exn_msg msg), some req)
      | .resp status body =>
        if status = 200 then
          match extract_first_choice_content body with
          | .ok content => (content, some req)       -- line 260
          | .error e => (.str (analyze_exn_msg e), some req)
        else (.str (analyze_status_msg status), some req)

/-- Embedding of `install_tool` (lines 268-311); identical shape with its own
prompt and message strings. -/
def install_tool (config : Json) (tool_name : String) (net : HttpResult) :
    Json × Option ChatRequest :=
  let prompt := install_prompt tool_name
  match config.getField "api_key" with          -- headers, line 284
  | .error e => (.str (install_exn_msg e), none)
  | .ok kv =>
    match config.getField "model" with          -- data, line 289
    | .error e => (.str (install_exn_msg e), none)
    | .ok mv =>
      let req : ChatRequest := ⟨kv, mv, prompt⟩
      match net with
      | .exn msg => (.str (install_exn_msg msg), some req)
      | .resp status body =>
        if status = 200 then
          match extract_first_choice_content body with
          | .ok content => (content, some req)       -- line 305
          | .error e => (.str (install_exn_msg e), some req)
        else (.str (install_status_msg status), some req)

/-!  ## Interactive Setup Wizard (`first_time_setup`, lines 48-123)

Interactive input is modelled as a list of lines from standard input;
each loop consumes lines until it is satisfied, and `none` models the
loop never terminating because the input stream ran out.  The network
is abstracted as `vnet` (what the validation GET would return for a
given key) and `mnet` (what the models GET would return). -/

/-- Python `str.strip()`: drop leading and trailing whitespace
(restricted to ASCII whitespace, the only whitespace the claims
exercise).  Defined over the character list so that concrete inputs
evaluate by `rfl`/`decide`. -/
def pyStrip (s : String) : String :=
  String.mk (((s.data.dropWhile Char.isWhitespace).reverse.dropWhile
    Char.isWhitespace).reverse)

/-- Python `str.isdigit()`: non-empty and all characters are digits
(restricted to ASCII digits, the only inputs the claims exercise). -/
def pyIsDigit (s : String) : Bool :=
  !s.data.isEmpty && s.data.all Char.isDigit

/-- Accumulating decimal reading of a digit list. -/
def digitsToNat (acc : Nat) : List Char → Nat
  | [] => acc
  | c :: rest => digitsToNat (acc * 10 + (c.toNat - 48)) rest

/-- Python `int(s)` on a string that passed `isdigit`. -/
def pyToNat (s : String) : Nat := digitsToNat 0 s.data

/-- Result of one iteration of the model-selection loop body. -/
inductive SelectResult where
  | selected (m : Json) : SelectResult
  | reprompt : SelectResult

/-- One iteration of the model-selection loop (lines 84-100, repeated
verbatim at lines 390-404): strip the line; a pure digit string in
`1..len(models)` selects that entry (1-based); a digit string out of
range re-prompts; anything else is taken as a custom model id. -/
def model_selection_step (models : List Json) (input_line : String) :
    SelectResult :=
  let choice_input := pyStrip input_line
  if pyIsDigit choice_input then
    let choice := pyToNat choice_input
    if 1 ≤ choice ∧ choice ≤ models.length then
      .selected (models.getD (choice - 1) .null)   -- models[choice-1], in bounds
    else
      .reprompt
  else
    .selected (.str choice_input)

/-- The model-selection loop (lines 82-102): consume input lines until
one selects; returns the selection, the number of prompts shown, and
the remaining input.  `none` when input is exhausted (the Python loop
would keep prompting). -/
def select_model_loop (models : List Json) :
    List String → Option (Json × Nat × List String)
  | [] => none
  | line :: rest =>
    match model_selection_step models line with
    | .selected m => some (m, 1, rest)
    | .reprompt =>
      match select_model_loop models rest with
      | some (m, n, rem) => some (m, n + 1, rem)
      | none => none

/-- The API-key acquisition loop (lines 58-72): read a line, strip it,
validate; accept on success, otherwise repeat.  Returns the accepted
key, the number of validation attempts, and the remaining input. -/
def api_key_loop (vnet : String → HttpResult) :
    List String → Option (String × Nat × List String)
  | [] => none
  | line :: rest =>
    let k := pyStrip line
    if (validate_openrouter_api_key k (vnet k)).1 then some (k, 1, rest)
    else
      match api_key_loop vnet rest with
      | some (k2, n, rem) => some (k2, n + 1, rem)
      | none => none

/-- The fixed error-monitoring block attached by setup (lines 105-115
and 409-419). -/
def error_monitoring_default : Json :=
  .obj [("enabled", .bool true),
        ("scan_interval", .num 300),
        ("log_patterns",
         .arr [.str "error:", .str "exception", .str "failure",
               .str "fatal", .str "critical"])]

/-- Configuration dict built by setup, in insertion order (`api_key`
first, then `model`, then `error_monitoring`), which is also the JSON
serialization order. -/
def mkConfig (api_key : String) (model : Json) : Json :=
  .obj [("api_key", .str api_key), ("model", model),
        ("error_monitoring", error_monitoring_default)]

/-- Outcome of a setup run, instrumented with how much interaction and
validation took place. -/
structure SetupOutcome where
  config : Json
  validations : Nat      -- calls to validate_openrouter_api_key
  key_prompts : Nat      -- input lines consumed by the API-key loop
  model_prompts : Nat    -- input lines consumed by model selection

/-- Embedding of `first_time_setup` (lines 48-123): run the key loop,
fetch models (with the accepted key), run the selection loop, attach
the monitoring block, save.  Also returns the portion of standard
input not consumed by the wizard, since later interaction in the same
process reads from the same stream. -/
def first_time_setup (vnet : String → HttpResult) (mnet : HttpResult)
    (inputs : List String) : Option (SetupOutcome × List String) :=
  match api_key_loop vnet inputs with
  | none => none
  | some (k, nk, rest) =>
    let models := get_available_models mnet
    match select_model_loop models rest with
    | none => none
    | some (m, nm, rem) => some (⟨mkConfig k m, nk, nk, nm⟩, rem)

/-- Embedding of the `setup` branch of `execute_command` (lines
370-429): with `--api-key` the key is taken as given, unvalidated, and
the key loop is skipped; with `--model` too, model selection is also
skipped; with neither argument the interactive wizard runs. -/
def execute_command_setup (api_key model : Option String)
    (vnet : String → HttpResult) (mnet : HttpResult)
    (inputs : List String) : Option SetupOutcome :=
  match api_key with
  | some k =>
    match model with
    | some m => some ⟨mkConfig k (.str m), 0, 0, 0⟩
    | none =>
      let models := get_available_models mnet
      match select_model_loop models inputs with
      | some (m, nm, _) => some ⟨mkConfig k m, 0, 0, nm⟩
      | none => none
  | none => (first_time_setup vnet mnet inputs).map Prod.fst

/-!  ## Config Store (`load_config` lines 29-46, saving lines 119-120)
-/

/-- State of the configuration file as `load_config` finds it. -/
inductive ConfigFile where
  | missing : ConfigFile
  | unreadable (err : String) : ConfigFile   -- open/json.load raises
  | valid (j : Json) : ConfigFile            -- parses as JSON

/-- Embedding of `load_config` (lines 29-46).  `setup_result` is the
configuration the interactive wizard would produce if invoked.  Returns
the configuration and whether `first_time_setup` was invoked. -/
def load_config (file : ConfigFile) (setup_result : Json) : Json × Bool :=
  match file with
  | .missing => (setup_result, true)        -- line 34-36
  | .unreadable _ => (setup_result, true)   -- except branch, lines 43-46
  | .valid j => (j, false)                  -- lines 38-42

/-- Embedding of one whole process invocation of the `setup` command
(`main` line 463 constructs `DevOpsAIAgent`, whose `__init__` at line
27 calls `load_config`, THEN `execute_command` runs the setup branch).
When the config file is missing or unreadable, `load_config` runs the
full interactive wizard — key prompt loop, validation, model selection
— before the setup handler ever reads its arguments; the handler then
runs on the remaining input, and its result overwrites `self.config`
(line 427).  The counters are process-wide totals. -/
def setup_command_process (file : ConfigFile) (api_key model : Option String)
    (vnet : String → HttpResult) (mnet : HttpResult)
    (inputs : List String) : Option SetupOutcome :=
  match file with
  | .valid _ => execute_command_setup api_key model vnet mnet inputs
  | .missing =>
    match first_time_setup vnet mnet inputs with
    | none => none
    | some (w, rest) =>
      (execute_command_setup api_key model vnet mnet rest).map
        fun out => ⟨out.config, w.validations + out.validations,
          w.key_prompts + out.key_prompts, w.model_prompts + out.model_prompts⟩
  | .unreadable _ =>
    match first_time_setup vnet mnet inputs with
    | none => none
    | some (w, rest) =>
      (execute_command_setup api_key model vnet mnet rest).map
        fun out => ⟨out.config, w.validations + out.validations,
          w.key_prompts + out.key_prompts, w.model_prompts + out.model_prompts⟩

/-- A lowercase hexadecimal digit. -/
def hex_digit (n : Nat) : Char :=
  if n < 10 then Char.ofNat (48 + n) else Char.ofNat (87 + n)

/-- Four-digit lowercase hexadecimal, as in JSON `\uXXXX` escapes. -/
def hex4 (n : Nat) : String :=
  String.mk [hex_digit (n / 4096 % 16), hex_digit (n / 256 % 16),
             hex_digit (n / 16 % 16), hex_digit (n % 16)]

/-- Escaping of one character inside a JSON string, as `json.dump` does
with its default `ensure_ascii=True`. -/
def json_escape_char (c : Char) : String :=
  if c = '"' then "\\\""
  else if c = '\\' then "\\\\"
  else if c = '\n' then "\\n"
  else if c = '\t' then "\\t"
  else if c = '\r' then "\\r"
  else if c.toNat < 32 then "\\u" ++ hex4 c.toNat
  else if c.toNat < 128 then String.singleton c
  else "\\u" ++ hex4 c.toNat

/-- A JSON string literal with quotes, as `json.dump` writes it. -/
def json_escape (s : String) : String :=
  "\"" ++ String.join (s.data.map json_escape_char) ++ "\""

/-- Indentation: `n` spaces. -/
def spaces (n : Nat) : String := String.mk (List.replicate n ' ')

mutual

/-- Serialization of a JSON value as `json.dump(config, f, indent=2)`
writes it: two-space indentation, items separated by `,\n`, keys
followed by `: `. -/
def json_dump : Json → Nat → String
  | .null, _ => "null"
  | .bool true, _ => "true"
  | .bool false, _ => "false"
  | .num n, _ => toString n
  | .str s, _ => json_escape s
  | .arr [], _ => "[]"
  | .arr (x :: xs), ind =>
    "[\n" ++ json_dump_items (x :: xs) (ind + 2) ++ "\n" ++ spaces ind ++ "]"
  | .obj [], _ => "\x7b\x7d"
  | .obj (f :: fs), ind =>
    "\x7b\n" ++ json_dump_fields (f :: fs) (ind + 2) ++ "\n" ++ spaces ind ++ "\x7d"

/-- Array items, one per line at the given indentation. -/
def json_dump_items : List Json → Nat → String
  | [], _ => ""
  | [x], ind => spaces ind ++ json_dump x ind
  | x :: y :: xs, ind =>
    spaces ind ++ json_dump x ind ++ ",\n" ++ json_dump_items (y :: xs) ind

/-- Object fields, one per line at the given indentation. -/
def json_dump_fields : List (String × Json) → Nat → String
  | [], _ => ""
  | [(k, v)], ind => spaces ind ++ json_escape k ++ ": " ++ json_dump v ind
  | (k, v) :: g :: fs, ind =>
    spaces ind ++ json_escape k ++ ": " ++ json_dump v ind ++ ",\n"
      ++ json_dump_fields (g :: fs) ind

end

/-- Saving the configuration (lines 119-120 and 423-424):
`open(CONFIG_FILE, 'w')` truncates, so the resulting file contents are
the serialization of `config` alone; `prev`, the prior contents (or
`none` when the file did not exist), never influences the result. -/
def save_file (config : Json) (_prev : Option String) : String :=
  json_dump config 0

/-!  ## Command Dispatcher (`main`, lines 434-464)

`main` builds an argparse parser with four subcommands.  The relevant
argparse semantics are part of the embedding: with no arguments,
`args.command` is `None`, help is printed and `main` returns (process
exit status 0) before `DevOpsAIAgent()` is constructed; with an
unrecognized subcommand, `parse_args` itself prints usage to stderr and
raises `SystemExit(2)`, so the process exits with status 2, again
before any agent is constructed.  Only a recognized subcommand reaches
`DevOpsAIAgent()` (one configuration load) and `execute_command`.  The
`else` branch of `execute_command` (lines 431-432) is therefore
unreachable from the CLI. -/

/-- The four registered subcommands (lines 440-454). -/
def known_commands : List String := ["analyze", "install", "monitor", "setup"]

/-- Observable outcome of one process invocation. -/
structure MainOutcome where
  exit_code : Nat
  usage_printed : Bool    -- help or usage text shown
  config_loads : Nat      -- configuration file loads performed
  requests : Nat          -- network requests issued

/-- Embedding of `main` (lines 434-464) plus argparse dispatch.
`agent_requests` abstracts the number of network requests the selected
command would make once the agent runs. -/
def main_run (argv : List String) (agent_requests : Nat) : MainOutcome :=
  match argv with
  | [] => ⟨0, true, 0, 0⟩                    -- no command: print_help, return
  | c :: _ =>
    if known_commands.contains c then
      ⟨0, false, 1, agent_requests⟩          -- DevOpsAIAgent() loads config once
    else
      ⟨2, true, 0, 0⟩                        -- argparse: invalid choice

/-!  # Helper lemmas -/

theorem str_append_assoc (a b c : String) : a ++ b ++ c = a ++ (b ++ c) := by
  cases a with
  | mk da =>
    cases b with
    | mk db =>
      cases c with
      | mk dc =>
        show String.append (String.append ⟨da⟩ ⟨db⟩) ⟨dc⟩
          = String.append ⟨da⟩ (String.append ⟨db⟩ ⟨dc⟩)
        simp [String.append]

theorem str_append_empty (s : String) : s ++ "" = s := String.append_empty s

theorem analyze_exn_msg_starts (e : String) : strStarts (analyze_exn_msg e) "Error:" :=
  ⟨" Could not analyze the error due to an API issue: " ++ e, by
    rw [analyze_exn_msg, ← str_append_assoc]; rfl⟩

theorem analyze_exn_msg_contains (e : String) : strContains (analyze_exn_msg e) e :=
  ⟨"Error: Could not analyze the error due to an API issue: ", "", by
    rw [analyze_exn_msg, str_append_empty]⟩

theorem analyze_status_msg_starts (s : Nat) : strStarts (analyze_status_msg s) "Error:" :=
  ⟨" Could not analyze the error. API responded with " ++ toString s ++ ".", by
    rw [analyze_status_msg, ← str_append_assoc, ← str_append_assoc]; rfl⟩

theorem analyze_status_msg_contains (s : Nat) :
    strContains (analyze_status_msg s) (toString s) :=
  ⟨"Error: Could not analyze the error. API responded with ", ".", rfl⟩

theorem install_exn_msg_starts (e : String) : strStarts (install_exn_msg e) "Error:" :=
  ⟨" Could not get installation instructions due to an API issue: " ++ e, by
    rw [install_exn_msg, ← str_append_assoc]; rfl⟩

theorem install_exn_msg_contains (e : String) : strContains (install_exn_msg e) e :=
  ⟨"Error: Could not get installation instructions due to an API issue: ", "", by
    rw [install_exn_msg, str_append_empty]⟩

theorem install_status_msg_starts (s : Nat) : strStarts (install_status_msg s) "Error:" :=
  ⟨" Could not get installation instructions. API responded with " ++ toString s ++ ".", by
    rw [install_status_msg, ← str_append_assoc, ← str_append_assoc]; rfl⟩

theorem install_status_msg_contains (s : Nat) :
    strContains (install_status_msg s) (toString s) :=
  ⟨"Error: Could not get installation instructions. API responded with ", ".", rfl⟩

theorem extract_model_ids_eq_spec (items : List Json) :
    ∀ ids, extract_model_ids items = .ok ids → ids = spec_model_ids items := by
  induction items with
  | nil =>
    intro ids h
    simp only [extract_model_ids] at h
    cases h
    rfl
  | cons m rest ih =>
    intro ids h
    cases m with
    | obj fs =>
      simp only [extract_model_ids, Json.pyGet, Json.pyGetD, bind, Except.bind] at h
      cases hf : fs.find? (fun p => p.1 == "id") with
      | none =>
        rw [hf] at h
        cases hr : extract_model_ids rest with
        | error e => rw [hr] at h; cases h
        | ok tail =>
          rw [hr] at h
          simp only [pure, Except.pure, Json.truthy] at h
          cases h
          simp only [spec_model_ids, List.filterMap_cons, hf]
          exact ih tail hr
      | some p =>
        rw [hf] at h
        cases hr : extract_model_ids rest with
        | error e => rw [hr] at h; cases h
        | ok tail =>
          rw [hr] at h
          simp only [pure, Except.pure] at h
          cases h
          have htail := ih tail hr
          simp only [spec_model_ids, List.filterMap_cons, hf] at htail ⊢
          by_cases ht : p.2.truthy
          · simp only [ht, if_true]
            simp [htail, spec_model_ids]
          · simp only [ht, if_false]
            simp [htail, spec_model_ids]
    | null => simp [extract_model_ids, Json.pyGet, Json.pyGetD, bind, Except.bind] at h
    | bool b => simp [extract_model_ids, Json.pyGet, Json.pyGetD, bind, Except.bind] at h
    | num n => simp [extract_model_ids, Json.pyGet, Json.pyGetD, bind, Except.bind] at h
    | str s => simp [extract_model_ids, Json.pyGet, Json.pyGetD, bind, Except.bind] at h
    | arr xs => simp [extract_model_ids, Json.pyGet, Json.pyGetD, bind, Except.bind] at h

theorem api_key_loop_pos (vnet : String → HttpResult) :
    ∀ inputs k nk rest, api_key_loop vnet inputs = some (k, nk, rest) → 1 ≤ nk := by
  intro inputs
  induction inputs with
  | nil => intro k nk rest h; simp [api_key_loop] at h
  | cons line rest' ih =>
    intro k nk rem h
    simp only [api_key_loop] at h
    by_cases hv : (validate_openrouter_api_key (pyStrip line) (vnet (pyStrip line))).1
    · rw [if_pos hv] at h
      cases h
      exact le_refl 1
    · rw [if_neg hv] at h
      cases hrec : api_key_loop vnet rest' with
      | none => rw [hrec] at h; cases h
      | some r =>
        rw [hrec] at h
        obtain ⟨k2, n2, rem2⟩ := r
        cases h
        exact Nat.succ_le_succ (Nat.zero_le n2)

theorem first_time_setup_wizard_ran (vnet : String → HttpResult)
    (mnet : HttpResult) (inputs : List String) (w : SetupOutcome)
    (rest : List String)
    (h : first_time_setup vnet mnet inputs = some (w, rest)) :
    1 ≤ w.validations ∧ 1 ≤ w.key_prompts := by
  simp only [first_time_setup] at h
  cases hk : api_key_loop vnet inputs with
  | none => rw [hk] at h; cases h
  | some r =>
    rw [hk] at h
    obtain ⟨k, nk, rest'⟩ := r
    dsimp only at h
    cases hs : select_model_loop (get_available_models mnet) rest' with
    | none => rw [hs] at h; cases h
    | some r2 =>
      rw [hs] at h
      obtain ⟨m, nm, rem⟩ := r2
      cases h
      have hpos := api_key_loop_pos vnet inputs k nk rest' hk
      exact ⟨hpos, hpos⟩

/-!  # Claims -/

/-- C1: for every call to `analyze_error` or `install_tool` (with a
configuration whose `api_key` and `model` lookups succeed, as on every
path that reaches the POST): on HTTP 200 the first choice's message
content is returned verbatim; on a non-200 status `S` the returned value
is a string beginning with "Error:" that contains the decimal digits of
`S`; on an exception the returned value is a string beginning with
"Error:" that contains the exception's message text; and in every case
the operation returns a value (the embedding is total) — either the
extracted content or an "Error:"-string — rather than raising. -/
theorem C1_chat_error_contract (cfg : Json) (error_text tool_name : String)
    (net : HttpResult) (kv mv : Json)
    (hk : cfg.getField "api_key" = .ok kv)
    (hm : cfg.getField "model" = .ok mv) :
    (∀ body content, net = .resp 200 body →
        extract_first_choice_content body = .ok content →
        (analyze_error cfg error_text net).1 = content
        ∧ (install_tool cfg tool_name net).1 = content)
    ∧ (∀ s body, net = .resp s body → s ≠ 200 →
        (∃ t, (analyze_error cfg error_text net).1 = .str t
              ∧ strStarts t "Error:" ∧ strContains t (toString s))
        ∧ (∃ t, (install_tool cfg tool_name net).1 = .str t
              ∧ strStarts t "Error:" ∧ strContains t (toString s)))
    ∧ (∀ msg, net = .exn msg →
        (∃ t, (analyze_error cfg error_text net).1 = .str t
              ∧ strStarts t "Error:" ∧ strContains t msg)
        ∧ (∃ t, (install_tool cfg tool_name net).1 = .str t
              ∧ strStarts t "Error:" ∧ strContains t msg))
    ∧ ((∃ t, (analyze_error cfg error_text net).1 = .str t ∧ strStarts t "Error:")
        ∨ (∃ body content, net = .resp 200 body
            ∧ extract_first_choice_content body = .ok content
            ∧ (analyze_error cfg error_text net).1 = content))
    ∧ ((∃ t, (install_tool cfg tool_name net).1 = .str t ∧ strStarts t "Error:")
        ∨ (∃ body content, net = .resp 200 body
            ∧ extract_first_choice_content body = .ok content
            ∧ (install_tool cfg tool_name net).1 = content)) := by
  refine ⟨?_, ?_, ?_, ?_, ?_⟩
  · intro body content h hx
    subst h
    constructor
    · simp [analyze_error, hk, hm, hx]
    · simp [install_tool, hk, hm, hx]
  · intro s body h hs
    subst h
    constructor
    · refine ⟨analyze_status_msg s, ?_, analyze_status_msg_starts s,
        analyze_status_msg_contains s⟩
      simp [analyze_error, hk, hm, hs]
    · refine ⟨install_status_msg s, ?_, install_status_msg_starts s,
        install_status_msg_contains s⟩
      simp [install_tool, hk, hm, hs]
  · intro msg h
    subst h
    constructor
    · refine ⟨analyze_exn_msg msg, ?_, analyze_exn_msg_starts msg,
        analyze_exn_msg_contains msg⟩
      simp [analyze_error, hk, hm]
    · refine ⟨install_exn_msg msg, ?_, install_exn_msg_starts msg,
        install_exn_msg_contains msg⟩
      simp [install_tool, hk, hm]
  · cases net with
    | exn msg =>
      exact .inl ⟨analyze_exn_msg msg, by simp [analyze_error, hk, hm],
        analyze_exn_msg_starts msg⟩
    | resp s body =>
      by_cases h200 : s = 200
      · subst h200
        cases hx : extract_first_choice_content body with
        | ok content =>
          exact .inr ⟨body, content, rfl, hx, by simp [analyze_error, hk, hm, hx]⟩
        | error e =>
          exact .inl ⟨analyze_exn_msg e, by simp [analyze_error, hk, hm, hx],
            analyze_exn_msg_starts e⟩
      · exact .inl ⟨analyze_status_msg s, by simp [analyze_error, hk, hm, h200],
          analyze_status_msg_starts s⟩
  · cases net with
    | exn msg =>
      exact .inl ⟨install_exn_msg msg, by simp [install_tool, hk, hm],
        install_exn_msg_starts msg⟩
    | resp s body =>
      by_cases h200 : s = 200
      · subst h200
        cases hx : extract_first_choice_content body with
        | ok content =>
          exact .inr ⟨body, content, rfl, hx, by simp [install_tool, hk, hm, hx]⟩
        | error e =>
          exact .inl ⟨install_exn_msg e, by simp [install_tool, hk, hm, hx],
            install_exn_msg_starts e⟩
      · exact .inl ⟨install_status_msg s, by simp [install_tool, hk, hm, h200],
          install_status_msg_starts s⟩

/-- Witness for C1 at a concrete 200 response. -/
theorem C1_chat_error_contract_witness :
    (analyze_error (mkConfig "sk" (.str "vendor/model")) "boom"
        (.resp 200 (.obj [("choices",
          .arr [.obj [("message", .obj [("content", .str "All good")])]])]))).1
      = .str "All good"
    ∧ (install_tool (mkConfig "sk" (.str "vendor/model")) "docker"
        (.resp 200 (.obj [("choices",
          .arr [.obj [("message", .obj [("content", .str "All good")])]])]))).1
      = .str "All good" :=
  (C1_chat_error_contract (mkConfig "sk" (.str "vendor/model")) "boom" "docker"
      (.resp 200 (.obj [("choices",
        .arr [.obj [("message", .obj [("content", .str "All good")])]])]))
      (.str "sk") (.str "vendor/model") rfl rfl).1
    (.obj [("choices",
      .arr [.obj [("message", .obj [("content", .str "All good")])]])])
    (.str "All good") rfl rfl

/-- C2: `get_available_models` returns the hardcoded fallback list of
exactly eleven model identifiers whenever the models request raises an
exception (including one raised while processing the body), returns a
non-200 status, or returns a 200 response whose data array yields no
model identifiers; on a 200 response whose data array yields a
non-empty id list it returns exactly the truthy `id` of every entry
that has one, preserving the server-provided order (`spec_model_ids`). -/
theorem C2_get_available_models (net : HttpResult) :
    fallback_models.length = 11
    ∧ (∀ msg, net = .exn msg → get_available_models net = fallback_models)
    ∧ (∀ s body, net = .resp s body → s ≠ 200 →
        get_available_models net = fallback_models)
    ∧ (∀ body e, net = .resp 200 body →
        body.pyGetD "data" (.arr []) = .error e →
        get_available_models net = fallback_models)
    ∧ (∀ body items e, net = .resp 200 body →
        body.pyGetD "data" (.arr []) = .ok (.arr items) →
        extract_model_ids items = .error e →
        get_available_models net = fallback_models)
    ∧ (∀ body items ids, net = .resp 200 body →
        body.pyGetD "data" (.arr []) = .ok (.arr items) →
        extract_model_ids items = .ok ids →
        (ids = [] → get_available_models net = fallback_models)
        ∧ (ids ≠ [] →
            get_available_models net = ids ∧ ids = spec_model_ids items)) := by
  refine ⟨rfl, ?_, ?_, ?_, ?_, ?_⟩
  · intro msg h; subst h; rfl
  · intro s body h hs
    subst h
    simp [get_available_models, hs]
  · intro body e h hd
    subst h
    simp [get_available_models, hd]
  · intro body items e h hd hx
    subst h
    simp [get_available_models, hd, hx]
  · intro body items ids h hd hx
    subst h
    constructor
    · intro hids
      subst hids
      simp [get_available_models, hd, hx]
    · intro hids
      refine ⟨?_, extract_model_ids_eq_spec items ids hx⟩
      simp [get_available_models, hd, hx, hids]

/-- Witness for C2 at a concrete 200 response with two ids. -/
theorem C2_get_available_models_witness :
    get_available_models
        (.resp 200 (.obj [("data",
          .arr [.obj [("id", .str "acme/model-x")],
                .obj [("id", .str "acme/model-y")]])]))
      = [.str "acme/model-x", .str "acme/model-y"] :=
  (((C2_get_available_models (.resp 200 (.obj [("data",
        .arr [.obj [("id", .str "acme/model-x")],
              .obj [("id", .str "acme/model-y")]])]))).2.2.2.2.2
      (.obj [("data", .arr [.obj [("id", .str "acme/model-x")],
                            .obj [("id", .str "acme/model-y")]])])
      [.obj [("id", .str "acme/model-x")], .obj [("id", .str "acme/model-y")]]
      [.str "acme/model-x", .str "acme/model-y"]
      rfl rfl rfl).2 (List.cons_ne_nil _ _)).1

/-- C3: `validate_openrouter_api_key` returns true if and only if the
key is non-empty (so the GET is issued at all) and the GET returns HTTP
200; any exception is caught and yields false rather than propagating. -/
theorem C3_validate_iff (api_key : String) (net : HttpResult) :
    ((validate_openrouter_api_key api_key net).1 = true
      ↔ api_key ≠ "" ∧ ∃ body, net = .resp 200 body)
    ∧ (∀ msg, net = .exn msg → (validate_openrouter_api_key api_key net).1 = false) := by
  constructor
  · cases net with
    | exn msg =>
      by_cases h : api_key = "" <;> simp [validate_openrouter_api_key, h]
    | resp s b =>
      by_cases h : api_key = ""
      · simp [validate_openrouter_api_key, h]
      · simp only [validate_openrouter_api_key, if_neg h, beq_iff_eq, ne_eq]
        constructor
        · intro hs; subst hs; exact ⟨h, b, rfl⟩
        · rintro ⟨-, body, hb⟩
          injection hb with h1 _
  · intro msg hmsg
    subst hmsg
    by_cases h : api_key = "" <;> simp [validate_openrouter_api_key, h]

/-- Witness for C3: a non-empty key with a 200 response validates. -/
theorem C3_validate_iff_witness :
    (validate_openrouter_api_key "sk-test" (.resp 200 .null)).1 = true :=
  (C3_validate_iff "sk-test" (.resp 200 .null)).1.mpr ⟨by decide, .null, rfl⟩

/-- C4, counterexample to the claim as stated: for the input line
" custom/model " (not purely numeric once stripped), the code accepts
the STRIPPED input "custom/model" as the custom model identifier, not
the raw input line " custom/model " verbatim. -/
theorem C4_model_selection_counterexample :
    model_selection_step fallback_models " custom/model "
      = .selected (.str "custom/model")
    ∧ "custom/model" ≠ " custom/model " := ⟨rfl, by decide⟩

/-- C4 (amended: the custom identifier accepted is the stripped input,
not the raw line): if the stripped input is purely digits and its value
k is in 1..n, entry k-1 is selected; purely digits but out of range
re-prompts without selecting (the loop consumes the line and continues);
otherwise the stripped input is accepted verbatim as a custom model id. -/
theorem C4_model_selection (models : List Json) (input_line : String) :
    (pyIsDigit (pyStrip input_line) = true →
      (1 ≤ pyToNat (pyStrip input_line) ∧ pyToNat (pyStrip input_line) ≤ models.length →
        model_selection_step models input_line
          = .selected (models.getD (pyToNat (pyStrip input_line) - 1) .null))
      ∧ (¬(1 ≤ pyToNat (pyStrip input_line) ∧ pyToNat (pyStrip input_line) ≤ models.length) →
          model_selection_step models input_line = .reprompt
          ∧ ∀ rest, select_model_loop models (input_line :: rest)
              = (select_model_loop models rest).map (fun r => (r.1, r.2.1 + 1, r.2.2))))
    ∧ (pyIsDigit (pyStrip input_line) = false →
        model_selection_step models input_line = .selected (.str (pyStrip input_line))) := by
  constructor
  · intro hd
    constructor
    · intro hr
      simp [model_selection_step, hd, hr]
    · intro hr
      have hstep : model_selection_step models input_line = .reprompt := by
        simp [model_selection_step, hd, hr]
      refine ⟨hstep, ?_⟩
      intro rest
      rw [select_model_loop, hstep]
      cases h : select_model_loop models rest with
      | none => rfl
      | some r => rfl
  · intro hd
    simp [model_selection_step, hd]

/-- Witness for C4: input " 2 " with two models selects the second. -/
theorem C4_model_selection_witness :
    model_selection_step [.str "m1", .str "m2"] " 2 " = .selected (.str "m2") :=
  ((C4_model_selection [.str "m1", .str "m2"] " 2 ").1 rfl).1 (by decide)

/-- C5: `load_config` returns the parsed configuration unchanged and does
not invoke setup whenever the file parses as valid JSON (in particular
with both apiKey and model set); whenever the file is missing or fails
to parse, it invokes the setup flow and returns its result. -/
theorem C5_load_config (file : ConfigFile) (setup_result : Json) :
    (∀ j, file = .valid j →
      j.hasKey "api_key" = true → j.hasKey "model" = true →
      load_config file setup_result = (j, false))
    ∧ (file = .missing → load_config file setup_result = (setup_result, true))
    ∧ (∀ e, file = .unreadable e → load_config file setup_result = (setup_result, true)) := by
  refine ⟨?_, ?_, ?_⟩
  · intro j hj _ _; subst hj; rfl
  · intro hj; subst hj; rfl
  · intro e hj; subst hj; rfl

/-- Witness for C5 at a concrete well-formed configuration file. -/
theorem C5_load_config_witness :
    load_config (.valid (mkConfig "sk" (.str "openai/gpt-4o"))) Json.null
      = (mkConfig "sk" (.str "openai/gpt-4o"), false) :=
  (C5_load_config _ _).1 _ rfl rfl rfl

/-- C6, counterexample to the claim as stated: a config file holding the
valid JSON object with no fields is returned by `load_config` without
invoking the Setup Wizard, and `analyze_error` then runs against this
configuration — an execution path that reaches a use of the
configuration without having first obtained a key and a model.  (The
lookup raises `KeyError: 'api_key'`, which is caught; no chat request is
issued, as the final conjunct records.) -/
theorem C6_invariant_counterexample :
    (load_config (.valid (Json.obj [])) Json.null).2 = false
    ∧ (Json.obj []).hasKey "api_key" = false
    ∧ (Json.obj []).hasKey "model" = false
    ∧ (analyze_error (Json.obj []) "some error" (.resp 200 .null)).1
        = .str (analyze_exn_msg "'api_key'")
    ∧ (analyze_error (Json.obj []) "some error" (.resp 200 .null)).2 = none :=
  ⟨rfl, rfl, rfl, rfl, rfl⟩

/-- C6 (amended: a configuration lacking apiKey or model CAN reach the
chat operations — via a valid-JSON config file missing those fields —
but a chat request is never issued with an unpopulated configuration):
whenever `analyze_error` or `install_tool` issues a chat request, the
configuration's `api_key` and `model` lookups succeeded and the request
carries exactly those values. -/
theorem C6_chat_uses_credentials (cfg : Json) (error_text tool_name : String)
    (net : HttpResult) :
    (∀ req, (analyze_error cfg error_text net).2 = some req →
        cfg.getField "api_key" = .ok req.api_key
        ∧ cfg.getField "model" = .ok req.model)
    ∧ (∀ req, (install_tool cfg tool_name net).2 = some req →
        cfg.getField "api_key" = .ok req.api_key
        ∧ cfg.getField "model" = .ok req.model) := by
  constructor
  · intro req hreq
    cases hk : cfg.getField "api_key" with
    | error e => simp [analyze_error, hk] at hreq
    | ok kv =>
      cases hm : cfg.getField "model" with
      | error e => simp [analyze_error, hk, hm] at hreq
      | ok mv =>
        have hfields : req.api_key = kv ∧ req.model = mv := by
          cases net with
          | exn msg =>
            simp only [analyze_error, hk, hm, Option.some.injEq] at hreq
            cases hreq
            exact ⟨rfl, rfl⟩
          | resp s body =>
            by_cases h200 : s = 200
            · subst h200
              cases hx : extract_first_choice_content body with
              | ok content =>
                simp only [analyze_error, hk, hm, hx, if_pos rfl,
                  Option.some.injEq] at hreq
                cases hreq
                exact ⟨rfl, rfl⟩
              | error e =>
                simp only [analyze_error, hk, hm, hx, if_pos rfl,
                  Option.some.injEq] at hreq
                cases hreq
                exact ⟨rfl, rfl⟩
            · simp only [analyze_error, hk, hm, if_neg h200,
                Option.some.injEq] at hreq
              cases hreq
              exact ⟨rfl, rfl⟩
        rw [hfields.1, hfields.2]
        exact ⟨rfl, rfl⟩
  · intro req hreq
    cases hk : cfg.getField "api_key" with
    | error e => simp [install_tool, hk] at hreq
    | ok kv =>
      cases hm : cfg.getField "model" with
      | error e => simp [install_tool, hk, hm] at hreq
      | ok mv =>
        have hfields : req.api_key = kv ∧ req.model = mv := by
          cases net with
          | exn msg =>
            simp only [install_tool, hk, hm, Option.some.injEq] at hreq
            cases hreq
            exact ⟨rfl, rfl⟩
          | resp s body =>
            by_cases h200 : s = 200
            · subst h200
              cases hx : extract_first_choice_content body with
              | ok content =>
                simp only [install_tool, hk, hm, hx, if_pos rfl,
                  Option.some.injEq] at hreq
                cases hreq
                exact ⟨rfl, rfl⟩
              | error e =>
                simp only [install_tool, hk, hm, hx, if_pos rfl,
                  Option.some.injEq] at hreq
                cases hreq
                exact ⟨rfl, rfl⟩
            · simp only [install_tool, hk, hm, if_neg h200,
                Option.some.injEq] at hreq
              cases hreq
              exact ⟨rfl, rfl⟩
        rw [hfields.1, hfields.2]
        exact ⟨rfl, rfl⟩

/-- Witness for C6 at a populated configuration whose request is issued. -/
theorem C6_chat_uses_credentials_witness :
    (mkConfig "sk" (.str "vendor/model")).getField "api_key"
      = .ok (ChatRequest.mk (.str "sk") (.str "vendor/model")
          (analyze_prompt "oops")).api_key
    ∧ (mkConfig "sk" (.str "vendor/model")).getField "model"
      = .ok (ChatRequest.mk (.str "sk") (.str "vendor/model")
          (analyze_prompt "oops")).model :=
  (C6_chat_uses_credentials (mkConfig "sk" (.str "vendor/model")) "oops" "tool"
      (.resp 500 .null)).1
    ⟨.str "sk", .str "vendor/model", analyze_prompt "oops"⟩ rfl

/-- C7, counterexample to the claim as stated: with a missing config
file, invoking `setup --api-key sk-cli --model vendor/m` still runs the
interactive wizard in the same process — the agent constructor's
`load_config` (line 27) reaches `first_time_setup` before
`execute_command` reads its arguments — so one API-key prompt and one
key validation are executed, not zero.  (The handler's result still
overwrites the configuration with the supplied values.) -/
theorem C7_setup_with_key_counterexample :
    setup_command_process .missing (some "sk-cli") (some "vendor/m")
        (fun _ => .resp 200 .null) (.exn "down") ["wizard-key", "1"]
      = some ⟨mkConfig "sk-cli" (.str "vendor/m"), 1, 1, 1⟩
    ∧ (1 : Nat) ≠ 0 := ⟨rfl, by decide⟩

/-- C7 (amended: the no-validation/no-prompt guarantee belongs to the
setup handler, and holds for the whole process exactly when the config
file exists and parses; on a missing or corrupt config file the agent
constructor first runs the interactive wizard, whose key-prompt loop
and validation execute in that process before the handler): the setup
handler with `--api-key` performs zero validations and zero key
prompts, with `--model` also zero model prompts, and writes the
supplied key and model as provided; a whole process invocation with a
parseable config file and both arguments performs zero interaction of
any kind; and a whole process invocation with a missing or unreadable
config file performs at least one validation and one key prompt
whatever the arguments. -/
theorem C7_setup_with_key (k : String) (vnet : String → HttpResult)
    (mnet : HttpResult) (inputs : List String) :
    (∀ m, execute_command_setup (some k) (some m) vnet mnet inputs
        = some ⟨mkConfig k (.str m), 0, 0, 0⟩
        ∧ (mkConfig k (.str m)).getField "api_key" = .ok (.str k)
        ∧ (mkConfig k (.str m)).getField "model" = .ok (.str m))
    ∧ (∀ out, execute_command_setup (some k) none vnet mnet inputs = some out →
        out.validations = 0 ∧ out.key_prompts = 0
        ∧ out.config.getField "api_key" = .ok (.str k))
    ∧ (∀ j m, setup_command_process (.valid j) (some k) (some m) vnet mnet inputs
        = some ⟨mkConfig k (.str m), 0, 0, 0⟩)
    ∧ (∀ marg out,
        setup_command_process .missing (some k) marg vnet mnet inputs = some out →
        1 ≤ out.validations ∧ 1 ≤ out.key_prompts)
    ∧ (∀ e marg out,
        setup_command_process (.unreadable e) (some k) marg vnet mnet inputs
          = some out →
        1 ≤ out.validations ∧ 1 ≤ out.key_prompts) := by
  refine ⟨?_, ?_, ?_, ?_, ?_⟩
  · intro m
    exact ⟨rfl, rfl, rfl⟩
  · intro out hout
    simp only [execute_command_setup] at hout
    cases hsel : select_model_loop (get_available_models mnet) inputs with
    | none => rw [hsel] at hout; cases hout
    | some r =>
      rw [hsel] at hout
      obtain ⟨m, nm, rem⟩ := r
      cases hout
      exact ⟨rfl, rfl, rfl⟩
  · intro j m
    rfl
  · intro marg out hout
    simp only [setup_command_process] at hout
    cases hw : first_time_setup vnet mnet inputs with
    | none => rw [hw] at hout; cases hout
    | some p =>
      rw [hw] at hout
      obtain ⟨w, rest⟩ := p
      dsimp only at hout
      cases hex : execute_command_setup (some k) marg vnet mnet rest with
      | none => rw [hex] at hout; cases hout
      | some out2 =>
        rw [hex] at hout
        simp only [Option.map_some', Option.some.injEq] at hout
        cases hout
        have hpos := first_time_setup_wizard_ran vnet mnet inputs w rest hw
        exact ⟨Nat.le_trans hpos.1 (Nat.le_add_right _ _),
          Nat.le_trans hpos.2 (Nat.le_add_right _ _)⟩
  · intro e marg out hout
    simp only [setup_command_process] at hout
    cases hw : first_time_setup vnet mnet inputs with
    | none => rw [hw] at hout; cases hout
    | some p =>
      rw [hw] at hout
      obtain ⟨w, rest⟩ := p
      dsimp only at hout
      cases hex : execute_command_setup (some k) marg vnet mnet rest with
      | none => rw [hex] at hout; cases hout
      | some out2 =>
        rw [hex] at hout
        simp only [Option.map_some', Option.some.injEq] at hout
        cases hout
        have hpos := first_time_setup_wizard_ran vnet mnet inputs w rest hw
        exact ⟨Nat.le_trans hpos.1 (Nat.le_add_right _ _),
          Nat.le_trans hpos.2 (Nat.le_add_right _ _)⟩

/-- Witness for C7 exercising both the handler clause (both arguments
supplied, zero interaction) and the missing-file clause (the wizard's
validation shows up in the process totals). -/
theorem C7_setup_with_key_witness :
    execute_command_setup (some "sk-abc") (some "vendor/model")
        (fun _ => .exn "offline") (.exn "offline") []
      = some ⟨mkConfig "sk-abc" (.str "vendor/model"), 0, 0, 0⟩
    ∧ 1 ≤ (SetupOutcome.mk (mkConfig "sk-abc" (.str "vendor/model")) 1 1 1).validations :=
  ⟨((C7_setup_with_key "sk-abc" (fun _ => .exn "offline") (.exn "offline") []).1
      "vendor/model").1,
   ((C7_setup_with_key "sk-abc" (fun _ => .resp 200 .null) (.exn "offline")
        ["wizard-key", "1"]).2.2.2.1 (some "vendor/model")
      ⟨mkConfig "sk-abc" (.str "vendor/model"), 1, 1, 1⟩ rfl).1⟩

/-- C8, counterexample to the claim as stated: invoked with the unknown
subcommand "frobnicate", the process exits with status 2 (argparse
rejects the invalid choice), not status 0. -/
theorem C8_dispatch_counterexample :
    (main_run ["frobnicate"] 0).exit_code = 2 ∧ (2 : Nat) ≠ 0 := ⟨rfl, by decide⟩

/-- C8 (amended: exit status 0 holds only for the no-subcommand case;
an unknown subcommand exits with status 2): with no subcommand the
program prints usage and exits 0 with no configuration load and no
network call; with an unknown subcommand argparse prints usage and the
process exits with status 2, likewise before any configuration load or
network call. -/
theorem C8_dispatch (agent_requests : Nat) :
    main_run [] agent_requests = ⟨0, true, 0, 0⟩
    ∧ (∀ c rest, known_commands.contains c = false →
        main_run (c :: rest) agent_requests = ⟨2, true, 0, 0⟩) := by
  refine ⟨rfl, ?_⟩
  intro c rest hc
  simp only [main_run, hc, Bool.false_eq_true, if_false]

/-- Witness for C8 at a concrete unknown subcommand. -/
theorem C8_dispatch_witness :
    main_run ["bogus"] 7 = ⟨2, true, 0, 0⟩ :=
  (C8_dispatch 7).2 "bogus" [] rfl

/-- C9: saving a fixed configuration is deterministic and overwriting —
the file contents after a save do not depend on the previous contents,
so saving twice produces byte-identical contents after each call. -/
theorem C9_save_idempotent (c : Json) (p1 p2 : Option String) :
    save_file c p1 = save_file c p2
    ∧ save_file c (some (save_file c p1)) = save_file c p1 := ⟨rfl, rfl⟩

/-- C10: with an empty (falsy) API key, `validate_openrouter_api_key`
returns false immediately and issues no network request. -/
theorem C10_validate_empty (net : HttpResult) :
    validate_openrouter_api_key "" net = (false, 0) := rfl
